import Mathlib

/-!
Verification of the offline-map service worker (src/sw.js).

The embedding models the Cache Storage API as an association list from
cache names to caches, and a cache as an association list from request
URLs (the request identity) to response snapshots.  The network is a
function from a URL to either a connectivity error or a response.
Event handlers from sw.js are translated as functions on this state:
the fetch-event router, the cache-first strategy, the install handler,
the activate sweep and the message handler.
-/

/-- A captured response: status code, response type ("basic", "opaque", ...)
and body content.  Mirrors the fields sw.js inspects. -/
structure Response where
  status : Nat
  rtype : String
  content : String
deriving DecidableEq, Repr

/-- networkResponse.clone() : a duplicate snapshot with the same data,
so that one copy can be stored and the other returned. -/
def Response.clone (r : Response) : Response :=
  ⟨r.status, r.rtype, r.content⟩

/-- One cache partition: request URL keyed response snapshots. -/
def Cache := List (String × Response)

/-- cache.match(request): look the request identity up in the partition. -/
def Cache.matchReq : Cache → String → Option Response
  | [], _ => none
  | (k, v) :: rest, u => if k = u then some v else Cache.matchReq rest u

/-- cache.put(request, response): upsert an entry keyed by the request. -/
def Cache.put : Cache → String → Response → Cache
  | [], u, r => [(u, r)]
  | (k, v) :: rest, u, r =>
      if k = u then (u, r) :: rest else (k, v) :: Cache.put rest u r

/-- The browser cache storage: named cache partitions. -/
def CacheStorage := List (String × Cache)

/-- Is a cache with this name present? -/
def CacheStorage.hasCache : CacheStorage → String → Bool
  | [], _ => false
  | (k, _) :: rest, n => if k = n then true else CacheStorage.hasCache rest n

/-- The entries of the named cache (empty when the cache is absent). -/
def CacheStorage.getCache : CacheStorage → String → Cache
  | [], _ => []
  | (k, c) :: rest, n => if k = n then c else CacheStorage.getCache rest n

/-- Apply a function to the named cache, creating it (from empty) if absent.
Shared shape behind caches.open and writes into an opened cache. -/
def CacheStorage.withCache : CacheStorage → String → (Cache → Cache) → CacheStorage
  | [], n, f => [(n, f [])]
  | (k, c) :: rest, n, f =>
      if k = n then (k, f c) :: rest else (k, c) :: CacheStorage.withCache rest n f

/-- caches.open(name): create the cache if it does not exist yet. -/
def CacheStorage.openCache (s : CacheStorage) (n : String) : CacheStorage :=
  s.withCache n id

/-- cache.put performed on the named (already opened) cache. -/
def CacheStorage.putEntry (s : CacheStorage) (n u : String) (r : Response) : CacheStorage :=
  s.withCache n (fun c => c.put u r)

/-- caches.delete(name): remove the named cache wholesale. -/
def CacheStorage.deleteCache : CacheStorage → String → CacheStorage
  | [], _ => []
  | (k, c) :: rest, n =>
      if k = n then CacheStorage.deleteCache rest n
      else (k, c) :: CacheStorage.deleteCache rest n

/-! ## Configuration constants of sw.js -/

def APP_SHELL_CACHE_NAME : String := "offline-map-appshell-v1"

def TILE_CACHE_NAME : String := "offline-map-tiles-v1"

def TILE_URL_PATTERN : String := "https://tile.openstreetmap.org/"

def APP_SHELL_FILES : List String :=
  [ "/",
    "/index.html",
    "/style.css",
    "/script.js",
    "/manifest.json",
    "/icons/icon-192x192.png",
    "/icons/icon-512x512.png",
    "https://unpkg.com/leaflet@1.9.4/dist/leaflet.css",
    "https://unpkg.com/leaflet@1.9.4/dist/leaflet.js" ]

/-- JavaScript String.startsWith, on the character lists of the strings. -/
def strStartsWith (s p : String) : Bool :=
  p.data.isPrefixOf s.data

/-- JavaScript String.endsWith, on the character lists of the strings. -/
def strEndsWith (s p : String) : Bool :=
  p.data.isSuffixOf s.data

/-! ## Cache-first strategy (cacheFirstThenNetwork, sw.js lines 90-116) -/

/-- The network as seen by one serve call: a URL is fetched to either a
connectivity error or a response. -/
def Network := String → Except String Response

/-- Outcome of one cacheFirstThenNetwork call: the settled promise value,
the cache storage afterwards, and how many network fetches were issued. -/
structure ServeResult where
  result : Except String Response
  storage : CacheStorage
  netCalls : Nat

/-- cacheFirstThenNetwork(request, cacheName): open the partition, return a
cache hit at once; on a miss fetch from the network, store a clone when the
response has status 200 and type "basic", and return the network response;
a fetch error is rethrown. -/
def cacheFirstThenNetwork (net : Network) (storage : CacheStorage)
    (request cacheName : String) : ServeResult :=
  let opened := storage.openCache cacheName
  match (opened.getCache cacheName).matchReq request with
  | some cachedResponse => ⟨Except.ok cachedResponse, opened, 0⟩
  | none =>
    match net request with
    | Except.ok networkResponse =>
        if networkResponse.status = 200 ∧ networkResponse.rtype = "basic" then
          ⟨Except.ok networkResponse,
           opened.putEntry cacheName request networkResponse.clone, 1⟩
        else
          ⟨Except.ok networkResponse, opened, 1⟩
    | Except.error e => ⟨Except.error e, opened, 1⟩

/-! ## Basic lemmas about the storage model -/

theorem Cache.matchReq_put_self (c : Cache) (u : String) (r : Response) :
    (c.put u r).matchReq u = some r := by
  induction c with
  | nil => simp [Cache.put, Cache.matchReq]
  | cons hd tl ih =>
    obtain ⟨k, v⟩ := hd
    by_cases h : k = u
    · simp [Cache.put, h, Cache.matchReq]
    · simp [Cache.put, h, Cache.matchReq, ih]

theorem Cache.matchReq_put_ne (c : Cache) (u v : String) (r : Response)
    (h : v ≠ u) : (c.put u r).matchReq v = c.matchReq v := by
  induction c with
  | nil => simp [Cache.put, Cache.matchReq, Ne.symm h]
  | cons hd tl ih =>
    obtain ⟨k, w⟩ := hd
    by_cases hk : k = u
    · subst hk
      simp [Cache.put, Cache.matchReq, Ne.symm h]
    · by_cases hv : k = v
      · subst hv
        simp [Cache.put, hk, Cache.matchReq, ih]
      · simp [Cache.put, hk, Cache.matchReq, hv, ih]

theorem CacheStorage.getCache_withCache_self (s : CacheStorage) (n : String)
    (f : Cache → Cache) : (s.withCache n f).getCache n = f (s.getCache n) := by
  induction s with
  | nil => simp [CacheStorage.withCache, CacheStorage.getCache]
  | cons hd tl ih =>
    obtain ⟨k, c⟩ := hd
    by_cases h : k = n <;>
      simp [CacheStorage.withCache, h, CacheStorage.getCache, ih]

theorem CacheStorage.getCache_withCache_ne (s : CacheStorage) (n m : String)
    (f : Cache → Cache) (h : m ≠ n) :
    (s.withCache n f).getCache m = s.getCache m := by
  induction s with
  | nil => simp [CacheStorage.withCache, CacheStorage.getCache, Ne.symm h]
  | cons hd tl ih =>
    obtain ⟨k, c⟩ := hd
    by_cases hk : k = n
    · subst hk
      simp [CacheStorage.withCache, CacheStorage.getCache, Ne.symm h]
    · by_cases hm : k = m
      · subst hm
        simp [CacheStorage.withCache, hk, CacheStorage.getCache, ih]
      · simp [CacheStorage.withCache, hk, CacheStorage.getCache, hm, ih]

theorem CacheStorage.hasCache_withCache_self (s : CacheStorage) (n : String)
    (f : Cache → Cache) : (s.withCache n f).hasCache n = true := by
  induction s with
  | nil => simp [CacheStorage.withCache, CacheStorage.hasCache]
  | cons hd tl ih =>
    obtain ⟨k, c⟩ := hd
    by_cases h : k = n <;>
      simp [CacheStorage.withCache, h, CacheStorage.hasCache, ih]

theorem CacheStorage.hasCache_withCache_ne (s : CacheStorage) (n m : String)
    (f : Cache → Cache) (h : m ≠ n) :
    (s.withCache n f).hasCache m = s.hasCache m := by
  induction s with
  | nil => simp [CacheStorage.withCache, CacheStorage.hasCache, Ne.symm h]
  | cons hd tl ih =>
    obtain ⟨k, c⟩ := hd
    by_cases hk : k = n
    · subst hk
      simp [CacheStorage.withCache, CacheStorage.hasCache, Ne.symm h]
    · by_cases hm : k = m
      · subst hm
        simp [CacheStorage.withCache, hk, CacheStorage.hasCache, ih]
      · simp [CacheStorage.withCache, hk, CacheStorage.hasCache, hm, ih]

theorem CacheStorage.openCache_of_hasCache (s : CacheStorage) (n : String)
    (h : s.hasCache n = true) : s.openCache n = s := by
  induction s with
  | nil => simp [CacheStorage.hasCache] at h
  | cons hd tl ih =>
    obtain ⟨k, c⟩ := hd
    by_cases hk : k = n
    · simp [CacheStorage.openCache, CacheStorage.withCache, hk]
    · simp [CacheStorage.hasCache, hk] at h
      have htl := ih h
      simp [CacheStorage.openCache] at htl
      simp [CacheStorage.openCache, CacheStorage.withCache, hk, htl]

theorem CacheStorage.getCache_of_hasCache_false (s : CacheStorage) (n : String)
    (h : s.hasCache n = false) : s.getCache n = [] := by
  induction s with
  | nil => simp [CacheStorage.getCache]
  | cons hd tl ih =>
    obtain ⟨k, c⟩ := hd
    by_cases hk : k = n
    · simp [CacheStorage.hasCache, hk] at h
    · simp [CacheStorage.hasCache, hk] at h
      simp [CacheStorage.getCache, hk, ih h]

theorem CacheStorage.hasCache_of_matchReq_some (s : CacheStorage) (n u : String)
    (r : Response) (h : (s.getCache n).matchReq u = some r) :
    s.hasCache n = true := by
  by_contra hfalse
  rw [Bool.not_eq_true] at hfalse
  rw [CacheStorage.getCache_of_hasCache_false s n hfalse] at h
  simp [Cache.matchReq] at h

/-! ## Concrete inputs used by witnesses -/

def respBasic : Response := ⟨200, "basic", "tile-bytes"⟩

def respOpaque : Response := ⟨200, "opaque", "cross-origin-bytes"⟩

def tileURL : String := "https://tile.openstreetmap.org/1/2/3.png"

def storageWithTile : CacheStorage := [(TILE_CACHE_NAME, [(tileURL, respBasic)])]

def storageEmptyTile : CacheStorage := [(TILE_CACHE_NAME, [])]

/-- In every branch, serve leaves the partition it was asked to use open,
because caches.open creates it before anything else happens. -/
theorem cacheFirst_storage_hasCache (net : Network) (storage : CacheStorage)
    (request cacheName : String) :
    (cacheFirstThenNetwork net storage request cacheName).storage.hasCache
      cacheName = true := by
  simp only [cacheFirstThenNetwork]
  split
  · simp [CacheStorage.openCache, CacheStorage.hasCache_withCache_self]
  · split
    · split
      · simp [CacheStorage.putEntry, CacheStorage.hasCache_withCache_self]
      · simp [CacheStorage.openCache, CacheStorage.hasCache_withCache_self]
    · simp [CacheStorage.openCache, CacheStorage.hasCache_withCache_self]

/-- C1: a request already stored in partition P is served from the cache:
the stored snapshot is returned, zero network calls are issued, and the
storage (hence the partition) is completely unchanged. -/
theorem cacheFirst_hit_serves_snapshot (net : Network) (storage : CacheStorage)
    (request cacheName : String) (r : Response)
    (h : (storage.getCache cacheName).matchReq request = some r) :
    cacheFirstThenNetwork net storage request cacheName =
      ⟨Except.ok r, storage, 0⟩ := by
  have hhas := CacheStorage.hasCache_of_matchReq_some storage cacheName request r h
  have hopen := CacheStorage.openCache_of_hasCache storage cacheName hhas
  simp [cacheFirstThenNetwork, hopen, h]

theorem cacheFirst_hit_serves_snapshot_witness :
    (storageWithTile.getCache TILE_CACHE_NAME).matchReq tileURL = some respBasic ∧
    cacheFirstThenNetwork (fun _ => Except.error "offline") storageWithTile
      tileURL TILE_CACHE_NAME = ⟨Except.ok respBasic, storageWithTile, 0⟩ :=
  ⟨by decide,
   cacheFirst_hit_serves_snapshot (fun _ => Except.error "offline") storageWithTile
     tileURL TILE_CACHE_NAME respBasic (by decide)⟩

/-- C2: on a cache miss whose fetch succeeds with status 200 and type
"basic", the original network response is returned to the caller, a clone
of it is stored under the request identity, and the clone carries the same
content as the returned response. -/
theorem cacheFirst_miss_populates (net : Network) (storage : CacheStorage)
    (request cacheName : String) (nr : Response)
    (hmiss : (storage.getCache cacheName).matchReq request = none)
    (hnet : net request = Except.ok nr)
    (hstatus : nr.status = 200) (htype : nr.rtype = "basic") :
    (cacheFirstThenNetwork net storage request cacheName).result = Except.ok nr ∧
    ((cacheFirstThenNetwork net storage request cacheName).storage.getCache
        cacheName).matchReq request = some nr.clone ∧
    nr.clone.content = nr.content := by
  have hopen : ((storage.openCache cacheName).getCache cacheName).matchReq
      request = none := by
    rw [CacheStorage.openCache, CacheStorage.getCache_withCache_self]
    exact hmiss
  refine ⟨?_, ?_, rfl⟩ <;>
    simp [cacheFirstThenNetwork, hopen, hnet, hstatus, htype,
      CacheStorage.putEntry, CacheStorage.getCache_withCache_self,
      Cache.matchReq_put_self]

theorem cacheFirst_miss_populates_witness :
    (storageEmptyTile.getCache TILE_CACHE_NAME).matchReq tileURL = none ∧
    (fun _ => Except.ok respBasic : Network) tileURL = Except.ok respBasic ∧
    respBasic.status = 200 ∧ respBasic.rtype = "basic" ∧
    ((cacheFirstThenNetwork (fun _ => Except.ok respBasic) storageEmptyTile
        tileURL TILE_CACHE_NAME).result = Except.ok respBasic ∧
      ((cacheFirstThenNetwork (fun _ => Except.ok respBasic) storageEmptyTile
          tileURL TILE_CACHE_NAME).storage.getCache TILE_CACHE_NAME).matchReq
        tileURL = some respBasic.clone ∧
      respBasic.clone.content = respBasic.content) :=
  ⟨by decide, rfl, rfl, rfl,
   cacheFirst_miss_populates (fun _ => Except.ok respBasic) storageEmptyTile
     tileURL TILE_CACHE_NAME respBasic (by decide) rfl rfl rfl⟩

/-- C3: on a cache miss whose fetch succeeds but is ineligible (status is
not 200 or the type is not "basic"), the network response is returned and
the storage is completely unchanged, so the partition still holds no entry
for the request. -/
theorem cacheFirst_ineligible_not_stored (net : Network) (storage : CacheStorage)
    (request cacheName : String) (nr : Response)
    (hP : storage.hasCache cacheName = true)
    (hmiss : (storage.getCache cacheName).matchReq request = none)
    (hnet : net request = Except.ok nr)
    (hin : ¬(nr.status = 200 ∧ nr.rtype = "basic")) :
    cacheFirstThenNetwork net storage request cacheName =
      ⟨Except.ok nr, storage, 1⟩ ∧
    ((cacheFirstThenNetwork net storage request cacheName).storage.getCache
        cacheName).matchReq request = none := by
  have hopeneq := CacheStorage.openCache_of_hasCache storage cacheName hP
  have heq : cacheFirstThenNetwork net storage request cacheName =
      ⟨Except.ok nr, storage, 1⟩ := by
    simp [cacheFirstThenNetwork, hopeneq, hmiss, hnet, hin]
  exact ⟨heq, by rw [heq]; exact hmiss⟩

theorem cacheFirst_ineligible_not_stored_witness :
    storageEmptyTile.hasCache TILE_CACHE_NAME = true ∧
    (storageEmptyTile.getCache TILE_CACHE_NAME).matchReq tileURL = none ∧
    ¬(respOpaque.status = 200 ∧ respOpaque.rtype = "basic") ∧
    (cacheFirstThenNetwork (fun _ => Except.ok respOpaque) storageEmptyTile
        tileURL TILE_CACHE_NAME = ⟨Except.ok respOpaque, storageEmptyTile, 1⟩ ∧
      ((cacheFirstThenNetwork (fun _ => Except.ok respOpaque) storageEmptyTile
          tileURL TILE_CACHE_NAME).storage.getCache TILE_CACHE_NAME).matchReq
        tileURL = none) :=
  ⟨by decide, by decide, by decide,
   cacheFirst_ineligible_not_stored (fun _ => Except.ok respOpaque)
     storageEmptyTile tileURL TILE_CACHE_NAME respOpaque (by decide) (by decide)
     rfl (by decide)⟩

/-- C4: on a cache miss whose fetch fails with a connectivity error, the
same error is propagated to the caller (no placeholder response is
fabricated) and the storage is completely unchanged, so no entry is
written for the request. -/
theorem cacheFirst_fetch_error_propagates (net : Network) (storage : CacheStorage)
    (request cacheName : String) (e : String)
    (hP : storage.hasCache cacheName = true)
    (hmiss : (storage.getCache cacheName).matchReq request = none)
    (hnet : net request = Except.error e) :
    cacheFirstThenNetwork net storage request cacheName =
      ⟨Except.error e, storage, 1⟩ ∧
    ((cacheFirstThenNetwork net storage request cacheName).storage.getCache
        cacheName).matchReq request = none := by
  have hopeneq := CacheStorage.openCache_of_hasCache storage cacheName hP
  have heq : cacheFirstThenNetwork net storage request cacheName =
      ⟨Except.error e, storage, 1⟩ := by
    simp [cacheFirstThenNetwork, hopeneq, hmiss, hnet]
  exact ⟨heq, by rw [heq]; exact hmiss⟩

theorem cacheFirst_fetch_error_propagates_witness :
    storageEmptyTile.hasCache TILE_CACHE_NAME = true ∧
    (storageEmptyTile.getCache TILE_CACHE_NAME).matchReq tileURL = none ∧
    (cacheFirstThenNetwork (fun _ => Except.error "offline") storageEmptyTile
        tileURL TILE_CACHE_NAME = ⟨Except.error "offline", storageEmptyTile, 1⟩ ∧
      ((cacheFirstThenNetwork (fun _ => Except.error "offline") storageEmptyTile
          tileURL TILE_CACHE_NAME).storage.getCache TILE_CACHE_NAME).matchReq
        tileURL = none) :=
  ⟨by decide, by decide,
   cacheFirst_fetch_error_propagates (fun _ => Except.error "offline")
     storageEmptyTile tileURL TILE_CACHE_NAME "offline" (by decide) (by decide)
     rfl⟩

/-! ## Activate sweep (activate listener, sw.js lines 47-65) -/

/-- The condition of the activate listener: a cache this service worker
manages whose name differs from the current version constant. The live
names are parameters because a deployment bump replaces the constants. -/
def isOldCacheName (appLive tileLive n : String) : Bool :=
  (strStartsWith n "offline-map-appshell-" && !(decide (n = appLive))) ||
  (strStartsWith n "offline-map-tiles-" && !(decide (n = tileLive)))

/-- The activate sweep: list all cache names, delete every old one. -/
def activateSweep (appLive tileLive : String) (storage : CacheStorage) :
    CacheStorage :=
  (List.map Prod.fst storage).foldl
    (fun acc cacheName =>
      if isOldCacheName appLive tileLive cacheName then acc.deleteCache cacheName
      else acc)
    storage

/-- The activate sweep with the constants deployed in sw.js. -/
def activateSweepLive (storage : CacheStorage) : CacheStorage :=
  activateSweep APP_SHELL_CACHE_NAME TILE_CACHE_NAME storage

theorem CacheStorage.hasCache_deleteCache_self (s : CacheStorage) (n : String) :
    (s.deleteCache n).hasCache n = false := by
  induction s with
  | nil => simp [CacheStorage.deleteCache, CacheStorage.hasCache]
  | cons hd tl ih =>
    obtain ⟨k, c⟩ := hd
    by_cases h : k = n <;>
      simp [CacheStorage.deleteCache, h, CacheStorage.hasCache, ih]

theorem CacheStorage.getCache_deleteCache_ne (s : CacheStorage) (k n : String)
    (h : n ≠ k) : (s.deleteCache k).getCache n = s.getCache n := by
  induction s with
  | nil => simp [CacheStorage.deleteCache]
  | cons hd tl ih =>
    obtain ⟨m, c⟩ := hd
    by_cases hm : m = k
    · subst hm
      simp [CacheStorage.deleteCache, CacheStorage.getCache, Ne.symm h, ih]
    · by_cases hn : m = n
      · subst hn
        simp [CacheStorage.deleteCache, hm, CacheStorage.getCache]
      · simp [CacheStorage.deleteCache, hm, CacheStorage.getCache, hn, ih]

theorem CacheStorage.hasCache_deleteCache_ne (s : CacheStorage) (k n : String)
    (h : n ≠ k) : (s.deleteCache k).hasCache n = s.hasCache n := by
  induction s with
  | nil => simp [CacheStorage.deleteCache]
  | cons hd tl ih =>
    obtain ⟨m, c⟩ := hd
    by_cases hm : m = k
    · subst hm
      simp [CacheStorage.deleteCache, CacheStorage.hasCache, Ne.symm h, ih]
    · by_cases hn : m = n
      · subst hn
        simp [CacheStorage.deleteCache, hm, CacheStorage.hasCache]
      · simp [CacheStorage.deleteCache, hm, CacheStorage.hasCache, hn, ih]

theorem CacheStorage.deleteCache_of_hasCache_false (s : CacheStorage) (n : String)
    (h : s.hasCache n = false) : s.deleteCache n = s := by
  induction s with
  | nil => simp [CacheStorage.deleteCache]
  | cons hd tl ih =>
    obtain ⟨k, c⟩ := hd
    by_cases hk : k = n
    · simp [CacheStorage.hasCache, hk] at h
    · simp [CacheStorage.hasCache, hk] at h
      simp [CacheStorage.deleteCache, hk, ih h]

theorem CacheStorage.hasCache_deleteCache_of_false (s : CacheStorage)
    (k n : String) (h : s.hasCache n = false) :
    (s.deleteCache k).hasCache n = false := by
  by_cases hk : n = k
  · subst hk
    exact CacheStorage.hasCache_deleteCache_self s n
  · rw [CacheStorage.hasCache_deleteCache_ne s k n hk]
    exact h

theorem CacheStorage.mem_keys_of_hasCache (s : CacheStorage) (n : String)
    (h : s.hasCache n = true) : n ∈ List.map Prod.fst s := by
  induction s with
  | nil => simp [CacheStorage.hasCache] at h
  | cons hd tl ih =>
    obtain ⟨k, c⟩ := hd
    by_cases hk : k = n
    · simp [hk]
    · simp [CacheStorage.hasCache, hk] at h
      simp [ih h]

theorem foldDelete_hasCache_of_false (p : String → Bool) (keys : List String)
    (acc : CacheStorage) (n : String) (h : acc.hasCache n = false) :
    (keys.foldl (fun a k => if p k then a.deleteCache k else a) acc).hasCache n
      = false := by
  induction keys generalizing acc with
  | nil => exact h
  | cons k ks ih =>
    simp only [List.foldl]
    by_cases hp : p k
    · simp only [hp, if_pos]
      exact ih _ (CacheStorage.hasCache_deleteCache_of_false acc k n h)
    · simp only [hp, if_neg, Bool.false_eq_true, not_false_iff]
      exact ih _ h

theorem foldDelete_hasCache_of_mem (p : String → Bool) (keys : List String)
    (acc : CacheStorage) (n : String) (hp : p n = true) (hmem : n ∈ keys) :
    (keys.foldl (fun a k => if p k then a.deleteCache k else a) acc).hasCache n
      = false := by
  induction keys generalizing acc with
  | nil => cases hmem
  | cons k ks ih =>
    simp only [List.foldl]
    by_cases hk : k = n
    · subst hk
      simp only [hp, if_pos]
      exact foldDelete_hasCache_of_false p ks _ k
        (CacheStorage.hasCache_deleteCache_self acc k)
    · have hmem2 : n ∈ ks := by
        rcases List.mem_cons.mp hmem with h1 | h2
        · exact absurd h1.symm hk
        · exact h2
      by_cases hpk : p k
      · simp only [hpk, if_pos]
        exact ih _ hmem2
      · simp only [hpk, if_neg, Bool.false_eq_true, not_false_iff]
        exact ih _ hmem2

theorem foldDelete_getCache_of_notP (p : String → Bool) (keys : List String)
    (acc : CacheStorage) (n : String) (hp : p n = false) :
    (keys.foldl (fun a k => if p k then a.deleteCache k else a) acc).getCache n
      = acc.getCache n := by
  induction keys generalizing acc with
  | nil => rfl
  | cons k ks ih =>
    simp only [List.foldl]
    by_cases hpk : p k
    · simp only [hpk, if_pos]
      rw [ih _]
      exact CacheStorage.getCache_deleteCache_ne acc k n
        (fun hkn => by rw [hkn] at hp; rw [hp] at hpk; cases hpk)
    · simp only [hpk, if_neg, Bool.false_eq_true, not_false_iff]
      exact ih _

theorem foldDelete_hasCache_of_notP (p : String → Bool) (keys : List String)
    (acc : CacheStorage) (n : String) (hp : p n = false) :
    (keys.foldl (fun a k => if p k then a.deleteCache k else a) acc).hasCache n
      = acc.hasCache n := by
  induction keys generalizing acc with
  | nil => rfl
  | cons k ks ih =>
    simp only [List.foldl]
    by_cases hpk : p k
    · simp only [hpk, if_pos]
      rw [ih _]
      exact CacheStorage.hasCache_deleteCache_ne acc k n
        (fun hkn => by rw [hkn] at hp; rw [hp] at hpk; cases hpk)
    · simp only [hpk, if_neg, Bool.false_eq_true, not_false_iff]
      exact ih _

theorem activateSweep_deletes (appLive tileLive : String) (s : CacheStorage)
    (n : String) (h : isOldCacheName appLive tileLive n = true) :
    (activateSweep appLive tileLive s).hasCache n = false := by
  cases hh : s.hasCache n
  · exact foldDelete_hasCache_of_false _ _ _ _ hh
  · exact foldDelete_hasCache_of_mem _ _ _ _ h
      (CacheStorage.mem_keys_of_hasCache s n hh)

theorem activateSweep_preserves_getCache (appLive tileLive : String)
    (s : CacheStorage) (n : String)
    (h : isOldCacheName appLive tileLive n = false) :
    (activateSweep appLive tileLive s).getCache n = s.getCache n :=
  foldDelete_getCache_of_notP _ _ _ _ h

theorem activateSweep_preserves_hasCache (appLive tileLive : String)
    (s : CacheStorage) (n : String)
    (h : isOldCacheName appLive tileLive n = false) :
    (activateSweep appLive tileLive s).hasCache n = s.hasCache n :=
  foldDelete_hasCache_of_notP _ _ _ _ h

/-- C5: after the Activate sweep, every cache whose name carries a managed
class marker but is not that class's live-generation constant is gone,
while the live-generation caches of both classes keep their presence and
their entries. -/
theorem activate_generational_eviction (s : CacheStorage) (n : String)
    (hclass : strStartsWith n "offline-map-appshell-" = true ∨
      strStartsWith n "offline-map-tiles-" = true)
    (hnotApp : n ≠ APP_SHELL_CACHE_NAME) (hnotTile : n ≠ TILE_CACHE_NAME) :
    (activateSweepLive s).hasCache n = false ∧
    (activateSweepLive s).getCache APP_SHELL_CACHE_NAME =
      s.getCache APP_SHELL_CACHE_NAME ∧
    (activateSweepLive s).hasCache APP_SHELL_CACHE_NAME =
      s.hasCache APP_SHELL_CACHE_NAME ∧
    (activateSweepLive s).getCache TILE_CACHE_NAME = s.getCache TILE_CACHE_NAME ∧
    (activateSweepLive s).hasCache TILE_CACHE_NAME = s.hasCache TILE_CACHE_NAME := by
  have hold : isOldCacheName APP_SHELL_CACHE_NAME TILE_CACHE_NAME n = true := by
    rcases hclass with hc | hc <;> simp [isOldCacheName, hc, hnotApp, hnotTile]
  have happ : isOldCacheName APP_SHELL_CACHE_NAME TILE_CACHE_NAME
      APP_SHELL_CACHE_NAME = false := by decide
  have htile : isOldCacheName APP_SHELL_CACHE_NAME TILE_CACHE_NAME
      TILE_CACHE_NAME = false := by decide
  exact ⟨activateSweep_deletes _ _ s n hold,
    activateSweep_preserves_getCache _ _ s _ happ,
    activateSweep_preserves_hasCache _ _ s _ happ,
    activateSweep_preserves_getCache _ _ s _ htile,
    activateSweep_preserves_hasCache _ _ s _ htile⟩

def staleStorage : CacheStorage :=
  [("offline-map-tiles-v0", [(tileURL, respBasic)]),
   (TILE_CACHE_NAME, [(tileURL, respBasic)]),
   (APP_SHELL_CACHE_NAME, [("/index.html", respBasic)])]

theorem activate_generational_eviction_witness :
    (strStartsWith "offline-map-tiles-v0" "offline-map-appshell-" = true ∨
      strStartsWith "offline-map-tiles-v0" "offline-map-tiles-" = true) ∧
    "offline-map-tiles-v0" ≠ APP_SHELL_CACHE_NAME ∧
    "offline-map-tiles-v0" ≠ TILE_CACHE_NAME ∧
    ((activateSweepLive staleStorage).hasCache "offline-map-tiles-v0" = false ∧
      (activateSweepLive staleStorage).getCache APP_SHELL_CACHE_NAME =
        staleStorage.getCache APP_SHELL_CACHE_NAME ∧
      (activateSweepLive staleStorage).hasCache APP_SHELL_CACHE_NAME =
        staleStorage.hasCache APP_SHELL_CACHE_NAME ∧
      (activateSweepLive staleStorage).getCache TILE_CACHE_NAME =
        staleStorage.getCache TILE_CACHE_NAME ∧
      (activateSweepLive staleStorage).hasCache TILE_CACHE_NAME =
        staleStorage.hasCache TILE_CACHE_NAME) :=
  ⟨Or.inr (by decide), by decide, by decide,
   activate_generational_eviction staleStorage "offline-map-tiles-v0"
     (Or.inr (by decide)) (by decide) (by decide)⟩

/-! ## Install handler (install listener, sw.js lines 27-44) -/

/-- cache.add(url): fetch the URL and store the response; the Cache API
rejects the add when the response status is not in the 200 range. In the
install listener each add has a catch that only logs, so a failed add
leaves the cache as it was. -/
def Cache.add (net : Network) (c : Cache) (url : String) : Cache :=
  match net url with
  | Except.error _ => c
  | Except.ok r => if 200 ≤ r.status ∧ r.status < 300 then c.put url r else c

/-- The install listener: open the app-shell cache and try to add every
listed file, each attempt independently guarded by a logging catch. -/
def installAppShell (net : Network) (appShellName : String)
    (files : List String) (storage : CacheStorage) : CacheStorage :=
  storage.withCache appShellName
    (fun cache => files.foldl (fun acc urlToCache => Cache.add net acc urlToCache) cache)

def netOffline : Network := fun _ => Except.error "offline"

/-- Storage as left by a first deployment that ran with tiles-v1 and cached
one tile; used for the generation-bump scenario. -/
def deploy1Storage : CacheStorage :=
  [(APP_SHELL_CACHE_NAME, [("/index.html", respBasic)]),
   (TILE_CACHE_NAME, [(tileURL, respBasic)])]

/-- C6 counterexample: bump the tile constant to tiles-v2, run Install and
the Activate sweep of the new deployment; tiles-v1 is gone, but contrary to
the claim the tiles-v2 cache is NOT present, because neither Install nor
Activate ever opens the tile cache - it is created lazily by the first tile
fetch. -/
theorem scenarioB_tilesV2_not_created :
    (activateSweep APP_SHELL_CACHE_NAME "offline-map-tiles-v2"
        (installAppShell netOffline APP_SHELL_CACHE_NAME APP_SHELL_FILES
          deploy1Storage)).hasCache "offline-map-tiles-v1" = false ∧
    (activateSweep APP_SHELL_CACHE_NAME "offline-map-tiles-v2"
        (installAppShell netOffline APP_SHELL_CACHE_NAME APP_SHELL_FILES
          deploy1Storage)).hasCache "offline-map-tiles-v2" = false := by
  decide

/-- C6 amended: after the bumped deployment's Install and Activate, the
tiles-v1 cache is absent; the tiles-v2 cache is still absent (it is not
created by the lifecycle), but it is never deleted by the sweep and comes
into existence as soon as the first tile request is served, whatever that
fetch returns. -/
theorem scenarioB_generation_bump (s : CacheStorage) (net netTile : Network)
    (u : String) (h2 : s.hasCache "offline-map-tiles-v2" = false) :
    (activateSweep APP_SHELL_CACHE_NAME "offline-map-tiles-v2"
        (installAppShell net APP_SHELL_CACHE_NAME APP_SHELL_FILES s)).hasCache
      "offline-map-tiles-v1" = false ∧
    (activateSweep APP_SHELL_CACHE_NAME "offline-map-tiles-v2"
        (installAppShell net APP_SHELL_CACHE_NAME APP_SHELL_FILES s)).hasCache
      "offline-map-tiles-v2" = false ∧
    (cacheFirstThenNetwork netTile
        (activateSweep APP_SHELL_CACHE_NAME "offline-map-tiles-v2"
          (installAppShell net APP_SHELL_CACHE_NAME APP_SHELL_FILES s))
        u "offline-map-tiles-v2").storage.hasCache "offline-map-tiles-v2"
      = true := by
  refine ⟨?_, ?_, ?_⟩
  · exact activateSweep_deletes _ _ _ _ (by decide)
  · have hpres := activateSweep_preserves_hasCache APP_SHELL_CACHE_NAME
      "offline-map-tiles-v2"
      (installAppShell net APP_SHELL_CACHE_NAME APP_SHELL_FILES s)
      "offline-map-tiles-v2" (by decide)
    rw [hpres, installAppShell,
      CacheStorage.hasCache_withCache_ne s APP_SHELL_CACHE_NAME
        "offline-map-tiles-v2" _ (by decide)]
    exact h2
  · exact cacheFirst_storage_hasCache _ _ _ _

theorem scenarioB_generation_bump_witness :
    deploy1Storage.hasCache "offline-map-tiles-v2" = false ∧
    ((activateSweep APP_SHELL_CACHE_NAME "offline-map-tiles-v2"
        (installAppShell netOffline APP_SHELL_CACHE_NAME APP_SHELL_FILES
          deploy1Storage)).hasCache "offline-map-tiles-v1" = false ∧
      (activateSweep APP_SHELL_CACHE_NAME "offline-map-tiles-v2"
        (installAppShell netOffline APP_SHELL_CACHE_NAME APP_SHELL_FILES
          deploy1Storage)).hasCache "offline-map-tiles-v2" = false ∧
      (cacheFirstThenNetwork netOffline
          (activateSweep APP_SHELL_CACHE_NAME "offline-map-tiles-v2"
            (installAppShell netOffline APP_SHELL_CACHE_NAME APP_SHELL_FILES
              deploy1Storage))
          tileURL "offline-map-tiles-v2").storage.hasCache
        "offline-map-tiles-v2" = true) :=
  ⟨by decide,
   scenarioB_generation_bump deploy1Storage netOffline netOffline tileURL
     (by decide)⟩

/-! ## Message listener (sw.js lines 140-160) -/

/-- The data carried by a client message. -/
structure SWMessage where
  action : String
deriving DecidableEq, Repr

/-- The reply posted back to event.source. -/
inductive SWReply where
  | cacheDeleted : SWReply
  | cacheDeleteFailed : String → SWReply
deriving DecidableEq, Repr

/-- The message listener: on (action = "deleteCache") delete the tile cache
only. The underlying caches.delete either resolves (removing the named
cache, whether or not it existed) or rejects with a storage error;
`deleteFailure` injects that environment outcome. A reply is posted only
when event.source exists; other messages are ignored. -/
def handleMessage (deleteFailure : Option String) (storage : CacheStorage)
    (data : Option SWMessage) (hasSource : Bool) :
    CacheStorage × Option SWReply :=
  match data with
  | some d =>
    if d.action = "deleteCache" then
      match deleteFailure with
      | none =>
          (storage.deleteCache TILE_CACHE_NAME,
           if hasSource then some SWReply.cacheDeleted else none)
      | some e =>
          (storage, if hasSource then some (SWReply.cacheDeleteFailed e) else none)
    else (storage, none)
  | none => (storage, none)

/-- C7: a deleteCache command received while the tile cache does not exist
still succeeds - the storage is unchanged and the sender is replied
cacheDeleted; deleting a non-existent cache is not an error. -/
theorem deleteCache_idempotent_success (storage : CacheStorage)
    (h : storage.hasCache TILE_CACHE_NAME = false) :
    handleMessage none storage (some ⟨"deleteCache"⟩) true =
      (storage, some SWReply.cacheDeleted) := by
  simp [handleMessage, CacheStorage.deleteCache_of_hasCache_false storage _ h]

def storageNoTiles : CacheStorage := [(APP_SHELL_CACHE_NAME, [("/index.html", respBasic)])]

theorem deleteCache_idempotent_success_witness :
    storageNoTiles.hasCache TILE_CACHE_NAME = false ∧
    handleMessage none storageNoTiles (some ⟨"deleteCache"⟩) true =
      (storageNoTiles, some SWReply.cacheDeleted) :=
  ⟨by decide, deleteCache_idempotent_success storageNoTiles (by decide)⟩

/-- C8: processing a deleteCache command touches only the tile cache: every
other cache - the app-shell cache in particular - keeps its presence and
entries; on success the reply is cacheDeleted and the tile cache is gone,
on a storage failure the reply is cacheDeleteFailed with the error text. -/
theorem deleteCache_only_tile_partition (deleteFailure : Option String)
    (storage : CacheStorage) (n : String) (hn : n ≠ TILE_CACHE_NAME) :
    (handleMessage deleteFailure storage (some ⟨"deleteCache"⟩) true).1.getCache n
        = storage.getCache n ∧
    (handleMessage deleteFailure storage (some ⟨"deleteCache"⟩) true).1.hasCache n
        = storage.hasCache n ∧
    (handleMessage deleteFailure storage (some ⟨"deleteCache"⟩) true).2 =
      (match deleteFailure with
       | none => some SWReply.cacheDeleted
       | some e => some (SWReply.cacheDeleteFailed e)) ∧
    (deleteFailure = none →
      (handleMessage deleteFailure storage
          (some ⟨"deleteCache"⟩) true).1.hasCache TILE_CACHE_NAME = false) := by
  cases deleteFailure with
  | none =>
    refine ⟨?_, ?_, ?_, ?_⟩
    · simpa [handleMessage] using
        CacheStorage.getCache_deleteCache_ne storage TILE_CACHE_NAME n hn
    · simpa [handleMessage] using
        CacheStorage.hasCache_deleteCache_ne storage TILE_CACHE_NAME n hn
    · simp [handleMessage]
    · intro _
      simpa [handleMessage] using
        CacheStorage.hasCache_deleteCache_self storage TILE_CACHE_NAME
  | some e =>
    refine ⟨?_, ?_, ?_, ?_⟩ <;> simp [handleMessage]

theorem deleteCache_only_tile_partition_witness :
    APP_SHELL_CACHE_NAME ≠ TILE_CACHE_NAME ∧
    ((handleMessage none deploy1Storage
        (some ⟨"deleteCache"⟩) true).1.getCache APP_SHELL_CACHE_NAME
      = deploy1Storage.getCache APP_SHELL_CACHE_NAME ∧
    (handleMessage none deploy1Storage
        (some ⟨"deleteCache"⟩) true).1.hasCache APP_SHELL_CACHE_NAME
      = deploy1Storage.hasCache APP_SHELL_CACHE_NAME ∧
    (handleMessage none deploy1Storage (some ⟨"deleteCache"⟩) true).2 =
      (match (none : Option String) with
       | none => some SWReply.cacheDeleted
       | some e => some (SWReply.cacheDeleteFailed e)) ∧
    ((none : Option String) = none →
      (handleMessage none deploy1Storage
          (some ⟨"deleteCache"⟩) true).1.hasCache TILE_CACHE_NAME = false)) :=
  ⟨by decide,
   deleteCache_only_tile_partition none deploy1Storage APP_SHELL_CACHE_NAME
     (by decide)⟩

/-! ## Best-effort install population (C9) -/

theorem Cache.matchReq_add_isSome (net : Network) (c : Cache) (x u : String) :
    (((Cache.add net c x).matchReq u).isSome = true) ↔
    ((c.matchReq u).isSome = true ∨
      (u = x ∧ ∃ r, net u = Except.ok r ∧ 200 ≤ r.status ∧ r.status < 300)) := by
  by_cases hux : u = x
  · subst hux
    cases hnet : net u with
    | error e => simp [Cache.add, hnet]
    | ok r =>
      by_cases hr : 200 ≤ r.status ∧ r.status < 300
      · simp [Cache.add, hnet, hr, Cache.matchReq_put_self]
      · simp [Cache.add, hnet, hr]
  · cases hnetx : net x with
    | error e => simp [Cache.add, hnetx, hux]
    | ok r =>
      by_cases hr : 200 ≤ r.status ∧ r.status < 300
      · simp [Cache.add, hnetx, hr, Cache.matchReq_put_ne c x u r hux, hux]
      · simp [Cache.add, hnetx, hr, hux]

theorem installFold_matchReq_isSome (net : Network) (urls : List String)
    (c : Cache) (u : String) :
    (((urls.foldl (fun acc x => Cache.add net acc x) c).matchReq u).isSome = true)
      ↔
    ((c.matchReq u).isSome = true ∨
      (u ∈ urls ∧ ∃ r, net u = Except.ok r ∧ 200 ≤ r.status ∧ r.status < 300)) := by
  induction urls generalizing c with
  | nil => simp
  | cons x xs ih =>
    simp only [List.foldl]
    rw [ih, Cache.matchReq_add_isSome]
    constructor
    · rintro ((h | ⟨hx, hE⟩) | ⟨hmem, hE⟩)
      · exact Or.inl h
      · exact Or.inr ⟨by simp [hx], hE⟩
      · exact Or.inr ⟨List.mem_cons_of_mem _ hmem, hE⟩
    · rintro (h | ⟨hmem, hE⟩)
      · exact Or.inl (Or.inl h)
      · rcases List.mem_cons.mp hmem with h1 | h2
        · exact Or.inl (Or.inr ⟨h1, hE⟩)
        · exact Or.inr ⟨h2, hE⟩

/-- C9: a fresh install is best-effort per asset: the app-shell cache
exists afterwards, and it holds an entry for a URL exactly when that URL
was in the list and its fetch came back with a storable (2xx) response -
one failed asset never aborts the others. -/
theorem install_best_effort (net : Network) (urls : List String) (u : String) :
    (installAppShell net APP_SHELL_CACHE_NAME urls []).hasCache
      APP_SHELL_CACHE_NAME = true ∧
    ((((installAppShell net APP_SHELL_CACHE_NAME urls []).getCache
          APP_SHELL_CACHE_NAME).matchReq u).isSome = true ↔
      (u ∈ urls ∧ ∃ r, net u = Except.ok r ∧ 200 ≤ r.status ∧ r.status < 300)) := by
  constructor
  · exact CacheStorage.hasCache_withCache_self _ _ _
  · rw [installAppShell, CacheStorage.getCache_withCache_self,
      installFold_matchReq_isSome]
    simp [CacheStorage.getCache, Cache.matchReq]

def netScenarioA : Network := fun url =>
  if url = "/a.html" then Except.ok ⟨200, "basic", "a-content"⟩
  else Except.error "net down"

theorem install_best_effort_witness :
    ((installAppShell netScenarioA APP_SHELL_CACHE_NAME ["/a.html", "/b.css"]
        []).hasCache APP_SHELL_CACHE_NAME = true ∧
      ((((installAppShell netScenarioA APP_SHELL_CACHE_NAME
            ["/a.html", "/b.css"] []).getCache APP_SHELL_CACHE_NAME).matchReq
          "/a.html").isSome = true ↔
        ("/a.html" ∈ ["/a.html", "/b.css"] ∧ ∃ r, netScenarioA "/a.html" =
          Except.ok r ∧ 200 ≤ r.status ∧ r.status < 300))) ∧
    ((installAppShell netScenarioA APP_SHELL_CACHE_NAME ["/a.html", "/b.css"]
        []).hasCache APP_SHELL_CACHE_NAME = true ∧
      ((((installAppShell netScenarioA APP_SHELL_CACHE_NAME
            ["/a.html", "/b.css"] []).getCache APP_SHELL_CACHE_NAME).matchReq
          "/b.css").isSome = true ↔
        ("/b.css" ∈ ["/a.html", "/b.css"] ∧ ∃ r, netScenarioA "/b.css" =
          Except.ok r ∧ 200 ≤ r.status ∧ r.status < 300))) :=
  ⟨install_best_effort netScenarioA ["/a.html", "/b.css"] "/a.html",
   install_best_effort netScenarioA ["/a.html", "/b.css"] "/b.css"⟩

/-! ## Fetch-event routing (fetch listener, sw.js lines 68-85) -/

/-- The request fields the fetch listener inspects. -/
structure RequestInfo where
  url : String
  mode : String
  destination : String
deriving DecidableEq, Repr

/-- isAppShellRequest (sw.js lines 122-135): same-origin check against
self.location.origin, suffix match against the asset list, navigation
mode, and the Leaflet CDN marker. -/
def isAppShellRequest (origin : String) (req : RequestInfo) : Bool :=
  let isSameOrigin := strStartsWith req.url origin
  let isListedFile := APP_SHELL_FILES.any (fun fileUrl => strEndsWith req.url fileUrl)
  let isNavigation := decide (req.mode = "navigate")
  let isLeafletResource := strStartsWith req.url "https://unpkg.com/leaflet"
  isNavigation || isListedFile || isLeafletResource ||
    (isSameOrigin && !(decide (req.destination = "")))

/-- What the fetch listener responds with. -/
inductive FetchAction where
  | respondCacheFirst : String → FetchAction
  | respondNetworkOnly : FetchAction
deriving DecidableEq, Repr

/-- The fetch listener: tile URLs go cache-first to the tile cache,
app-shell requests go cache-first to the app-shell cache, everything else
goes straight to the network. -/
def fetchRoute (origin : String) (req : RequestInfo) : FetchAction :=
  if strStartsWith req.url TILE_URL_PATTERN then
    FetchAction.respondCacheFirst TILE_CACHE_NAME
  else if isAppShellRequest origin req then
    FetchAction.respondCacheFirst APP_SHELL_CACHE_NAME
  else
    FetchAction.respondNetworkOnly

/-- C10: because "/" is in the asset list and rule 3 matches by URL
suffix, every request whose URL ends in "/" and does not carry the tile
URL marker is routed cache-first to the app-shell cache - whatever its
origin, mode or destination. -/
theorem route_trailing_slash_appshell (origin : String) (req : RequestInfo)
    (hslash : strEndsWith req.url "/" = true)
    (htile : strStartsWith req.url TILE_URL_PATTERN = false) :
    fetchRoute origin req = FetchAction.respondCacheFirst APP_SHELL_CACHE_NAME := by
  have hlist : APP_SHELL_FILES.any (fun fileUrl => strEndsWith req.url fileUrl)
      = true :=
    List.any_eq_true.mpr ⟨"/", by simp [APP_SHELL_FILES], hslash⟩
  have happ : isAppShellRequest origin req = true := by
    simp [isAppShellRequest, hlist]
  simp [fetchRoute, htile, happ]

theorem route_trailing_slash_appshell_witness :
    strEndsWith "https://attacker.example/assets/" "/" = true ∧
    strStartsWith "https://attacker.example/assets/" TILE_URL_PATTERN = false ∧
    fetchRoute "https://myapp.example"
        ⟨"https://attacker.example/assets/", "cors", ""⟩ =
      FetchAction.respondCacheFirst APP_SHELL_CACHE_NAME :=
  ⟨by decide, by decide,
   route_trailing_slash_appshell "https://myapp.example"
     ⟨"https://attacker.example/assets/", "cors", ""⟩ (by decide) (by decide)⟩
